import Mathlib

/-!
Shallow embedding of `dags/.ipynb_checkpoints/greeting_dag-checkpoint.py`.

The module defines two zero-argument callables returning string literals,
constructs a workflow object named `greeting_dag` whose start timestamp is
the wall clock at load time, registers two tasks wrapping the callables,
and declares a single ordering edge `hello_task >> goodbye_task`.

Timestamps are abstracted as naturals; the nondeterministic wall clock at
load time is an explicit parameter `now` of the load function, so one load
of the module is the value `loadModule now`.
-/

/-- The orchestrator's workflow-definition object: a name and a start
timestamp. -/
structure DAG where
  dag_id : String
  start_date : Nat

/-- A task wrapper (the framework's PythonOperator class): a name, the
wrapped zero-argument callable, and the name of the owning workflow. -/
structure PythonOperator where
  task_id : String
  python_callable : Unit → String
  dag_id : String

/-- Module-level state built up while the definition file is loaded: the
workflow object, the tasks registered to it in registration order, and the
declared ordering edges as (upstream id, downstream id) pairs. -/
structure Workflow where
  dag : DAG
  tasks : List PythonOperator
  edges : List (String × String)

/-- `def hello(): return 'Hello world!'` -/
def hello (_ : Unit) : String := "Hello world!"

/-- `def goodbye(): return 'goodbye everyone'` -/
def goodbye (_ : Unit) : String := "goodbye everyone"

/-- The external workflow-definition constructor: takes a name and a start
time. -/
def DAG_init (dag_id : String) (start_date : Nat) : DAG :=
  { dag_id := dag_id, start_date := start_date }

/-- The external task constructor: takes a name, a zero-argument callable,
and a reference to the owning workflow. -/
def PythonOperator_init (task_id : String) (python_callable : Unit → String)
    (dag : DAG) : PythonOperator :=
  { task_id := task_id, python_callable := python_callable, dag_id := dag.dag_id }

/-- `greeting_dag = DAG(dag_id = 'greeting_dag', start_date=datetime.now())`,
with the wall clock at load time passed in as `now`. -/
def greeting_dag (now : Nat) : DAG := DAG_init "greeting_dag" now

/-- `goodbye_task = PythonOperator(task_id='goodbye_task',
python_callable=goodbye, dag=greeting_dag)` -/
def goodbye_task (now : Nat) : PythonOperator :=
  PythonOperator_init "goodbye_task" goodbye (greeting_dag now)

/-- `hello_task = PythonOperator(task_id='hello_task',
python_callable=hello, dag=greeting_dag)` -/
def hello_task (now : Nat) : PythonOperator :=
  PythonOperator_init "hello_task" hello (greeting_dag now)

/-- Registering an operator with `dag=...` appends it to that workflow's
task list. -/
def addTask (w : Workflow) (t : PythonOperator) : Workflow :=
  { w with tasks := w.tasks ++ [t] }

/-- The `>>` declaration appends one directed (upstream, downstream)
ordering edge to the workflow. -/
def addEdge (w : Workflow) (up down : PythonOperator) : Workflow :=
  { w with edges := w.edges ++ [(up.task_id, down.task_id)] }

/-- Loading the definition file runs its statements in source order:
construct the DAG with `start_date = now`, register `goodbye_task`, then
register `hello_task`, then declare `hello_task >> goodbye_task`. -/
def loadModule (now : Nat) : Workflow :=
  let d := greeting_dag now
  let s0 : Workflow := { dag := d, tasks := [], edges := [] }
  let s1 := addTask s0 (goodbye_task now)
  let s2 := addTask s1 (hello_task now)
  addEdge s2 (hello_task now) (goodbye_task now)

/-- Modelled from the spec: actual scheduling is owned by the external
orchestrator, so an execution of the workflow is abstracted as an
assignment of a start instant and a finish instant to each task name. -/
structure Execution where
  startT : String → Nat
  finishT : String → Nat

/-- Modelled from the spec: an execution is valid when every registered
task finishes no earlier than it starts, and for every declared ordering
edge the downstream task starts no earlier than the upstream task finishes
(the "runs after" relation). -/
def validExecution (w : Workflow) (e : Execution) : Bool :=
  w.tasks.all (fun t => decide (e.startT t.task_id ≤ e.finishT t.task_id)) &&
    w.edges.all (fun p => decide (e.finishT p.1 ≤ e.startT p.2))

/-- State-passing form of calling a callable whose body is a single
`return` of a string literal: the body neither reads nor writes the module
state, so the call returns the state unchanged together with the string. -/
def invoke (w : Workflow) (f : Unit → String) : Workflow × String :=
  (w, f ())

/-- Fuel-bounded reachability along the declared ordering edges. -/
def reachesIn (edges : List (String × String)) : Nat → String → String → Bool
  | 0, a, b => edges.contains (a, b)
  | n + 1, a, b =>
      edges.contains (a, b) ||
        edges.any (fun p => p.1 == a && reachesIn edges n p.2 b)

/-- The ordering graph has a cycle exactly when some registered task
reaches itself along a nonempty edge path; the edge count bounds the
length of a simple path. -/
def hasCycle (w : Workflow) : Bool :=
  w.tasks.any (fun t => reachesIn w.edges w.edges.length t.task_id t.task_id)

/-- C1: invoking the first callable, `hello`, with no arguments returns
exactly the string "Hello world!", for every invocation. -/
theorem hello_returns_literal : ∀ u : Unit, hello u = "Hello world!" :=
  fun _ => rfl

/-- Witness for C1 at the concrete (unique) argument. -/
theorem hello_returns_literal_wit : hello () = "Hello world!" :=
  hello_returns_literal ()

/-- C2: invoking the second callable, `goodbye`, with no arguments returns
exactly the string "goodbye everyone", for every invocation. -/
theorem goodbye_returns_literal : ∀ u : Unit, goodbye u = "goodbye everyone" :=
  fun _ => rfl

/-- Witness for C2 at the concrete (unique) argument. -/
theorem goodbye_returns_literal_wit : goodbye () = "goodbye everyone" :=
  goodbye_returns_literal ()

/-- C3: the loaded workflow declares exactly one directed ordering edge,
from `hello_task` to `goodbye_task`, and in every valid execution
`goodbye_task` does not start before `hello_task` finishes. -/
theorem single_edge_orders_tasks (now : Nat) (e : Execution)
    (h : validExecution (loadModule now) e = true) :
    (loadModule now).edges = [("hello_task", "goodbye_task")] ∧
      e.finishT "hello_task" ≤ e.startT "goodbye_task" := by
  refine ⟨rfl, ?_⟩
  have hedges : (loadModule now).edges = [("hello_task", "goodbye_task")] := rfl
  unfold validExecution at h
  rw [Bool.and_eq_true] at h
  have h2 := h.2
  rw [hedges] at h2
  simpa using h2

/-- A concrete schedule used to witness C3: `hello_task` runs on [0, 1]
and `goodbye_task` on [2, 3]. -/
def sampleExec : Execution :=
  { startT := fun s => if s == "hello_task" then 0 else 2,
    finishT := fun s => if s == "hello_task" then 1 else 3 }

/-- Witness for C3 at load instant 0 and the concrete valid schedule
`sampleExec`. -/
theorem single_edge_orders_tasks_wit :
    validExecution (loadModule 0) sampleExec = true ∧
      ((loadModule 0).edges = [("hello_task", "goodbye_task")] ∧
        sampleExec.finishT "hello_task" ≤ sampleExec.startT "goodbye_task") :=
  ⟨by decide, single_edge_orders_tasks 0 sampleExec (by decide)⟩

/-- C4: each callable takes no input (its domain is the unit type), is
total and deterministic: any two invocations of the same callable return
the same fixed string literal. -/
theorem callables_deterministic : ∀ u v : Unit,
    hello u = hello v ∧ hello u = "Hello world!" ∧
      goodbye u = goodbye v ∧ goodbye u = "goodbye everyone" :=
  fun _ _ => ⟨rfl, rfl, rfl, rfl⟩

/-- Witness for C4 at the concrete (unique) arguments. -/
theorem callables_deterministic_wit :
    hello () = hello () ∧ hello () = "Hello world!" ∧
      goodbye () = goodbye () ∧ goodbye () = "goodbye everyone" :=
  callables_deterministic () ()

/-- C5: in `greeting_dag` the two task names are distinct and the ordering
graph over the registered tasks with its single edge has no cycle. -/
theorem unique_names_acyclic (now : Nat) :
    ((loadModule now).tasks.map PythonOperator.task_id).Nodup ∧
      hasCycle (loadModule now) = false := by
  constructor
  · have h : (loadModule now).tasks.map PythonOperator.task_id
        = ["goodbye_task", "hello_task"] := rfl
    rw [h]
    decide
  · rfl

/-- Witness for C5 at load instant 0. -/
theorem unique_names_acyclic_wit :
    ((loadModule 0).tasks.map PythonOperator.task_id).Nodup ∧
      hasCycle (loadModule 0) = false :=
  unique_names_acyclic 0

/-- C6: each task wraps exactly one zero-argument callable and belongs to
exactly one workflow: `hello_task` wraps `hello` and `goodbye_task` wraps
`goodbye`, both owned by `greeting_dag`, and every task registered by the
module belongs to that one workflow. -/
theorem tasks_wrap_and_belong (now : Nat) :
    (hello_task now).python_callable = hello ∧
      (hello_task now).dag_id = (greeting_dag now).dag_id ∧
      (goodbye_task now).python_callable = goodbye ∧
      (goodbye_task now).dag_id = (greeting_dag now).dag_id ∧
      (loadModule now).tasks.all (fun t => t.dag_id == "greeting_dag") = true :=
  ⟨rfl, rfl, rfl, rfl, rfl⟩

/-- Witness for C6 at load instant 0. -/
theorem tasks_wrap_and_belong_wit :
    (hello_task 0).python_callable = hello ∧
      (hello_task 0).dag_id = (greeting_dag 0).dag_id ∧
      (goodbye_task 0).python_callable = goodbye ∧
      (goodbye_task 0).dag_id = (greeting_dag 0).dag_id ∧
      (loadModule 0).tasks.all (fun t => t.dag_id == "greeting_dag") = true :=
  tasks_wrap_and_belong 0

/-- C7: the workflow and its tasks are built once at definition-load time,
and invoking either callable leaves the loaded definition — its name,
start timestamp, task set and ordering edge — unchanged. -/
theorem load_immutable_under_invocation (now : Nat) :
    (invoke (loadModule now) hello).1 = loadModule now ∧
      (invoke (loadModule now) goodbye).1 = loadModule now ∧
      (loadModule now).dag = DAG_init "greeting_dag" now ∧
      (loadModule now).tasks.map PythonOperator.task_id = ["goodbye_task", "hello_task"] ∧
      (loadModule now).edges = [("hello_task", "goodbye_task")] :=
  ⟨rfl, rfl, rfl, rfl, rfl⟩

/-- Witness for C7 at load instant 0. -/
theorem load_immutable_under_invocation_wit :
    (invoke (loadModule 0) hello).1 = loadModule 0 ∧
      (invoke (loadModule 0) goodbye).1 = loadModule 0 ∧
      (loadModule 0).dag = DAG_init "greeting_dag" 0 ∧
      (loadModule 0).tasks.map PythonOperator.task_id = ["goodbye_task", "hello_task"] ∧
      (loadModule 0).edges = [("hello_task", "goodbye_task")] :=
  load_immutable_under_invocation 0

/-- C8: the definition calls the external registration interface exactly
as described: the workflow constructor is passed a name and a start time,
and each task constructor is passed a name, a zero-argument callable, and
a reference to the owning workflow. -/
theorem registration_calls (now : Nat) :
    greeting_dag now = DAG_init "greeting_dag" now ∧
      goodbye_task now = PythonOperator_init "goodbye_task" goodbye (greeting_dag now) ∧
      hello_task now = PythonOperator_init "hello_task" hello (greeting_dag now) :=
  ⟨rfl, rfl, rfl⟩

/-- Witness for C8 at load instant 0. -/
theorem registration_calls_wit :
    greeting_dag 0 = DAG_init "greeting_dag" 0 ∧
      goodbye_task 0 = PythonOperator_init "goodbye_task" goodbye (greeting_dag 0) ∧
      hello_task 0 = PythonOperator_init "hello_task" hello (greeting_dag 0) :=
  registration_calls 0

/-- C9: the workflow's start timestamp is the wall clock at the moment the
definition is loaded, not a fixed constant: it equals the load instant,
and two loads at different instants carry different start timestamps. -/
theorem start_date_is_load_time :
    (∀ now : Nat, (loadModule now).dag.start_date = now) ∧
      (loadModule 0).dag.start_date ≠ (loadModule 1).dag.start_date :=
  ⟨fun _ => rfl, by decide⟩

/-- C10: `goodbye_task` is constructed before `hello_task`, yet the
ordering graph contains exactly one edge, with `hello_task` upstream of
`goodbye_task`, and no edge in the other direction. -/
theorem ordering_independent_of_construction (now : Nat) :
    (loadModule now).tasks.map PythonOperator.task_id = ["goodbye_task", "hello_task"] ∧
      (loadModule now).edges = [("hello_task", "goodbye_task")] ∧
      ("goodbye_task", "hello_task") ∉ (loadModule now).edges := by
  refine ⟨rfl, rfl, ?_⟩
  have h : (loadModule now).edges = [("hello_task", "goodbye_task")] := rfl
  rw [h]
  decide

/-- Witness for C10 at load instant 0. -/
theorem ordering_independent_of_construction_wit :
    (loadModule 0).tasks.map PythonOperator.task_id = ["goodbye_task", "hello_task"] ∧
      (loadModule 0).edges = [("hello_task", "goodbye_task")] ∧
      ("goodbye_task", "hello_task") ∉ (loadModule 0).edges :=
  ordering_independent_of_construction 0
